import Mathlib

/-!
Verification development for the kodegen introspection tools: a shallow
embedding of the usage-statistics tool (src/inspect_usage_stats.rs), the
tool-call history query tools (src/inspect_tool_calls.rs,
src/get_recent_tool_calls.rs), and — modelled from the specification where
the backing crate is not part of this repository — the bounded history
store and its query engine, together with theorems settling the frozen
claims about them.
-/

/-- Model of an opaque serialized JSON payload (serde_json::Value) carried in
a Record's arguments and output fields. -/
inductive Value where
  | null : Value
  | bool : Bool → Value
  | num : Int → Value
  | str : String → Value
deriving DecidableEq, Repr

/-- One completed tool invocation, the unit of history (the ToolCallEntry
shape consumed by inspect_tool_calls.rs: tool_name, timestamp, duration_ms,
arguments, output).  Timestamps are modelled as naturals (the spec accepts
any opaque orderable representation). -/
structure Record where
  tool_name : String
  timestamp : Nat
  duration_ms : Nat
  arguments : Value
  output : Value
deriving DecidableEq, Repr

/-- Usage-counter state as read by inspect_usage_stats.rs from
UsageTracker::get_stats: total/successful/failed counts, per-tool counts,
and first/last-used timestamps (seconds). -/
structure TrackerStats where
  total_tool_calls : Nat
  successful_calls : Nat
  failed_calls : Nat
  tool_counts : List (String × Nat)
  first_used : Int
  last_used : Int
deriving DecidableEq, Repr

/-- Tracker state before any call is recorded. -/
def initialStats : TrackerStats :=
  { total_tool_calls := 0, successful_calls := 0, failed_calls := 0,
    tool_counts := [], first_used := 0, last_used := 0 }

/-- Increment the per-tool counter for one tool name, inserting it at count 1
when absent (keys stay unique). -/
def bumpCount (name : String) : List (String × Nat) → List (String × Nat)
  | [] => [(name, 1)]
  | p :: rest => if p.1 = name then (p.1, p.2 + 1) :: rest else p :: bumpCount name rest

/-- Modelled from the spec: UsageTracker::record (kodegen_utils::usage_tracker,
not part of this repository's src).  Per spec 4.3 it increments total_calls,
exactly one of successful_calls/failed_calls, the per-tool counter, and
updates first_used/last_used. -/
def recordCall (s : TrackerStats) (toolName : String) (success : Bool) (ts : Int) : TrackerStats :=
  { total_tool_calls := s.total_tool_calls + 1,
    successful_calls := s.successful_calls + (if success then 1 else 0),
    failed_calls := s.failed_calls + (if success then 0 else 1),
    tool_counts := bumpCount toolName s.tool_counts,
    first_used := if s.total_tool_calls = 0 then ts else s.first_used,
    last_used := ts }

/-- Fold a sequence of (tool, success, timestamp) calls through recordCall
starting from the empty tracker. -/
def runCalls (calls : List (String × Bool × Int)) : TrackerStats :=
  calls.foldl (fun s c => recordCall s c.1 c.2.1 c.2.2) initialStats

/-- Per-tool entry of the structured usage output
(kodegen_mcp_schema ToolUsageStats, as populated by inspect_usage_stats.rs). -/
structure ToolUsageStats where
  tool_name : String
  call_count : Nat
  total_duration_ms : Nat
  avg_duration_ms : Nat
deriving DecidableEq, Repr

/-- Structured output of the usage-stats tool (InspectUsageOutput).  The f64
success_rate is embedded as an exact rational. -/
structure InspectUsageOutput where
  success : Bool
  total_calls : Nat
  tools_used : Nat
  tool_usage : List ToolUsageStats
  session_duration_ms : Nat
  success_rate : Rat
  successful_calls : Nat
  failed_calls : Nat
deriving DecidableEq, Repr

/-- Embedding of InspectUsageStatsTool::execute
(src/inspect_usage_stats.rs lines 40-84): per-tool stats are mapped with
hard-coded zero durations, session duration is (last_used - first_used) *
1000 when last_used > first_used and 0 otherwise, and success_rate is
successful/total * 100 when total > 0 and 100.0 otherwise. -/
def inspectUsageExecute (stats : TrackerStats) : InspectUsageOutput :=
  { success := true,
    total_calls := stats.total_tool_calls,
    tools_used := stats.tool_counts.length,
    tool_usage := stats.tool_counts.map (fun p =>
      { tool_name := p.1, call_count := p.2, total_duration_ms := 0, avg_duration_ms := 0 }),
    session_duration_ms :=
      if stats.first_used < stats.last_used
      then ((stats.last_used - stats.first_used) * 1000).toNat
      else 0,
    success_rate :=
      if 0 < stats.total_tool_calls
      then ((stats.successful_calls : Rat) / (stats.total_tool_calls : Rat)) * 100
      else 100,
    successful_calls := stats.successful_calls,
    failed_calls := stats.failed_calls }

/-- Sum of the per-tool counters. -/
def countsSum : List (String × Nat) → Nat
  | [] => 0
  | p :: rest => p.2 + countsSum rest

/-- Sum of the call_count fields of the structured per-tool entries. -/
def usageSum : List ToolUsageStats → Nat
  | [] => 0
  | e :: rest => e.call_count + usageSum rest

theorem countsSum_bumpCount (name : String) (l : List (String × Nat)) :
    countsSum (bumpCount name l) = countsSum l + 1 := by
  induction l with
  | nil => simp [bumpCount, countsSum]
  | cons p rest ih =>
    by_cases h : p.1 = name
    · simp [bumpCount, h, countsSum]; omega
    · simp [bumpCount, h, countsSum, ih]; omega

theorem usageSum_map (l : List (String × Nat)) :
    usageSum (l.map (fun p =>
      ({ tool_name := p.1, call_count := p.2, total_duration_ms := 0,
         avg_duration_ms := 0 } : ToolUsageStats))) = countsSum l := by
  induction l with
  | nil => simp [usageSum, countsSum]
  | cons p rest ih => simp [usageSum, countsSum, ih]

theorem recordCall_preserves (s : TrackerStats) (n : String) (b : Bool) (t : Int)
    (h1 : s.successful_calls + s.failed_calls = s.total_tool_calls)
    (h2 : countsSum s.tool_counts = s.total_tool_calls) :
    (recordCall s n b t).successful_calls + (recordCall s n b t).failed_calls
        = (recordCall s n b t).total_tool_calls
    ∧ countsSum (recordCall s n b t).tool_counts = (recordCall s n b t).total_tool_calls := by
  refine ⟨?_, ?_⟩
  · cases b <;> simp [recordCall] <;> omega
  · simp [recordCall, countsSum_bumpCount, h2]

theorem runCalls_aux (calls : List (String × Bool × Int)) (s : TrackerStats)
    (h1 : s.successful_calls + s.failed_calls = s.total_tool_calls)
    (h2 : countsSum s.tool_counts = s.total_tool_calls) :
    (calls.foldl (fun st c => recordCall st c.1 c.2.1 c.2.2) s).successful_calls
        + (calls.foldl (fun st c => recordCall st c.1 c.2.1 c.2.2) s).failed_calls
        = (calls.foldl (fun st c => recordCall st c.1 c.2.1 c.2.2) s).total_tool_calls
    ∧ countsSum (calls.foldl (fun st c => recordCall st c.1 c.2.1 c.2.2) s).tool_counts
        = (calls.foldl (fun st c => recordCall st c.1 c.2.1 c.2.2) s).total_tool_calls := by
  induction calls generalizing s with
  | nil => exact ⟨h1, h2⟩
  | cons c rest ih =>
    have hp := recordCall_preserves s c.1 c.2.1 c.2.2 h1 h2
    exact ih (recordCall s c.1 c.2.1 c.2.2) hp.1 hp.2

/-- C5: after every sequence of record() calls, successful_calls +
failed_calls = total_calls and the per-tool counts sum to total_calls, and
the same equalities hold between the corresponding fields of the structured
usage-stats output. -/
theorem counters_invariant (calls : List (String × Bool × Int)) :
    (runCalls calls).successful_calls + (runCalls calls).failed_calls
        = (runCalls calls).total_tool_calls
    ∧ countsSum (runCalls calls).tool_counts = (runCalls calls).total_tool_calls
    ∧ (inspectUsageExecute (runCalls calls)).successful_calls
        + (inspectUsageExecute (runCalls calls)).failed_calls
        = (inspectUsageExecute (runCalls calls)).total_calls
    ∧ usageSum (inspectUsageExecute (runCalls calls)).tool_usage
        = (inspectUsageExecute (runCalls calls)).total_calls := by
  have h := runCalls_aux calls initialStats (by simp [initialStats]) (by simp [initialStats, countsSum])
  refine ⟨h.1, h.2, ?_, ?_⟩
  · simpa [inspectUsageExecute] using h.1
  · simpa [inspectUsageExecute, usageSum_map] using h.2

/-- C7: the session_duration_ms field of the usage-stats output equals 1000
times the clamped-to-non-negative difference last_used - first_used (Int.toNat
clamps negatives to 0); in particular it is 0 whenever last_used ≤ first_used,
and being a natural it is never negative. -/
theorem session_duration_clamped (s : TrackerStats) :
    (inspectUsageExecute s).session_duration_ms
        = 1000 * (s.last_used - s.first_used).toNat
    ∧ (s.last_used ≤ s.first_used → (inspectUsageExecute s).session_duration_ms = 0) := by
  constructor
  · simp only [inspectUsageExecute]
    split
    · next h => omega
    · next h => omega
  · intro h
    simp only [inspectUsageExecute]
    split
    · next h2 => omega
    · rfl

/-- C7 witness: a concrete tracker state with last_used < first_used, where
the reported session duration is 0. -/
theorem session_duration_clamped_witness :
    ({ initialStats with first_used := 10, last_used := 3 } : TrackerStats).last_used
      ≤ ({ initialStats with first_used := 10, last_used := 3 } : TrackerStats).first_used
    ∧ (inspectUsageExecute { initialStats with first_used := 10, last_used := 3 }).session_duration_ms = 0 :=
  ⟨by decide,
   (session_duration_clamped { initialStats with first_used := 10, last_used := 3 }).2 (by decide)⟩

/-- C1 counterexample: at the empty tracker state total_tool_calls = 0, yet
the structured success_rate produced by the usage-stats execute is 100, not
the claimed 0. -/
theorem success_rate_zero_calls_counterexample :
    initialStats.total_tool_calls = 0
    ∧ (inspectUsageExecute initialStats).success_rate = 100
    ∧ (inspectUsageExecute initialStats).success_rate ≠ 0 := by
  refine ⟨rfl, ?_, ?_⟩ <;> simp [inspectUsageExecute, initialStats]

/-- C1 amended: for every tracker state with total_tool_calls = 0, the
structured success_rate field of the usage-stats output is 100 (the code's
else-branch policy), not 0. -/
theorem success_rate_zero_calls_is_100 (s : TrackerStats)
    (h : s.total_tool_calls = 0) :
    (inspectUsageExecute s).success_rate = 100 := by
  simp [inspectUsageExecute, h]

/-- C1 amended witness: the empty tracker has no calls and reports a 100
success rate. -/
theorem success_rate_zero_calls_is_100_witness :
    initialStats.total_tool_calls = 0
    ∧ (inspectUsageExecute initialStats).success_rate = 100 :=
  ⟨by decide, success_rate_zero_calls_is_100 initialStats (by decide)⟩

/-- C9: every per-tool entry of the usage-stats output has
total_duration_ms = 0 and avg_duration_ms = 0, whatever the tracker state
(the source hard-codes both to 0); only call_count varies. -/
theorem tool_usage_durations_zero (s : TrackerStats) (e : ToolUsageStats)
    (h : e ∈ (inspectUsageExecute s).tool_usage) :
    e.total_duration_ms = 0 ∧ e.avg_duration_ms = 0 := by
  simp only [inspectUsageExecute, List.mem_map] at h
  obtain ⟨p, _, rfl⟩ := h
  exact ⟨rfl, rfl⟩

/-- C9 witness: after recording one call of tool a, the single per-tool
entry has zero total and average durations. -/
theorem tool_usage_durations_zero_witness :
    ({ tool_name := "a", call_count := 1, total_duration_ms := 0,
       avg_duration_ms := 0 } : ToolUsageStats)
        ∈ (inspectUsageExecute (recordCall initialStats "a" true 5)).tool_usage
    ∧ ({ tool_name := "a", call_count := 1, total_duration_ms := 0,
         avg_duration_ms := 0 } : ToolUsageStats).total_duration_ms = 0
    ∧ ({ tool_name := "a", call_count := 1, total_duration_ms := 0,
         avg_duration_ms := 0 } : ToolUsageStats).avg_duration_ms = 0 := by
  refine ⟨by decide, ?_⟩
  exact tool_usage_durations_zero (recordCall initialStats "a" true 5) _ (by decide)

/-- Capacity of the in-memory history store (spec 3: fixed at 1000; also
stated in the tool descriptions in src: last 1000 calls kept). -/
def MAX_ENTRIES : Nat := 1000

/-- Modelled from the spec: ToolHistory append (kodegen_mcp_tool::tool_history,
not part of this repository's src).  Per spec 4.1 it adds one Record and
evicts the oldest when at capacity (FIFO). -/
def appendRecord (store : List Record) (r : Record) : List Record :=
  if store.length < MAX_ENTRIES then store ++ [r] else store.drop 1 ++ [r]

/-- State of the history store after appending every Record of xs, in order,
to an initially empty store. -/
def histAppendAll (xs : List Record) : List Record :=
  xs.foldl appendRecord []

/-- Suffix of the last MAX_ENTRIES elements of a list (the whole list when
it is shorter). -/
def tailCap (l : List Record) : List Record :=
  l.drop (l.length - MAX_ENTRIES)

theorem appendRecord_tailCap (s : List Record) (x : Record) :
    appendRecord (tailCap s) x = tailCap (s ++ [x]) := by
  simp only [tailCap, appendRecord, MAX_ENTRIES, List.length_append, List.length_drop,
    List.length_cons, List.length_nil]
  rcases Nat.lt_trichotomy s.length 1000 with hlt | heq | hgt
  · have h0 : s.length - 1000 = 0 := by omega
    have h1 : s.length + 1 - 1000 = 0 := by omega
    rw [h0, h1]
    rw [if_pos (by simpa using hlt)]
    simp
  · have h0 : s.length - 1000 = 0 := by omega
    have h1 : s.length + 1 - 1000 = 1 := by omega
    rw [h0, h1]
    rw [if_neg (by simp; omega)]
    have h2 : (1 : Nat) ≤ s.length := by omega
    simp [List.drop_append_of_le_length h2]
  · have hc : ¬ (s.length - (s.length - 1000) < 1000) := by omega
    have h1 : s.length + 1 - 1000 = (s.length - 1000) + 1 := by omega
    have h3 : s.length - 1000 + 1 ≤ s.length := by omega
    rw [h1, if_neg hc]
    rw [List.drop_drop]
    rw [List.drop_append_of_le_length h3]

theorem histAppend_aux (xs : List Record) (s : List Record) :
    xs.foldl appendRecord (tailCap s) = tailCap (s ++ xs) := by
  induction xs generalizing s with
  | nil => simp
  | cons x rest ih =>
    have step := appendRecord_tailCap s x
    calc (x :: rest).foldl appendRecord (tailCap s)
        = rest.foldl appendRecord (appendRecord (tailCap s) x) := List.foldl_cons ..
      _ = rest.foldl appendRecord (tailCap (s ++ [x])) := by rw [step]
      _ = tailCap (s ++ [x] ++ rest) := ih (s ++ [x])
      _ = tailCap (s ++ x :: rest) := by simp

theorem histAppendAll_eq (xs : List Record) :
    histAppendAll xs = xs.drop (xs.length - MAX_ENTRIES) := by
  have h := histAppend_aux xs []
  simpa [tailCap, histAppendAll] using h

/-- C3: after appending any sequence of more than 1000 Records to an empty
store, the store holds exactly the 1000 most recently appended Records in
insertion order (strict FIFO eviction of the oldest), and at every
intermediate point the store size never exceeds 1000. -/
theorem history_fifo_eviction (xs : List Record) (h : MAX_ENTRIES < xs.length) :
    histAppendAll xs = xs.drop (xs.length - MAX_ENTRIES)
    ∧ (histAppendAll xs).length = MAX_ENTRIES
    ∧ ∀ n : Nat, (histAppendAll (xs.take n)).length ≤ MAX_ENTRIES := by
  refine ⟨histAppendAll_eq xs, ?_, ?_⟩
  · rw [histAppendAll_eq]; simp; omega
  · intro n
    rw [histAppendAll_eq]
    simp [List.length_take]
    omega

/-- Record with a given timestamp and otherwise trivial fields, used to build
concrete stores. -/
def mkRecord (i : Nat) : Record :=
  { tool_name := "t", timestamp := i, duration_ms := 0,
    arguments := Value.null, output := Value.null }

/-- Concrete sequence of n distinct Records. -/
def dummyRecords (n : Nat) : List Record :=
  (List.range n).map mkRecord

/-- C3 witness: appending 1001 Records leaves exactly the last 1000, the
store size is 1000, and no intermediate state exceeds 1000. -/
theorem history_fifo_eviction_witness :
    MAX_ENTRIES < (dummyRecords 1001).length
    ∧ (histAppendAll (dummyRecords 1001)
        = (dummyRecords 1001).drop ((dummyRecords 1001).length - MAX_ENTRIES)
      ∧ (histAppendAll (dummyRecords 1001)).length = MAX_ENTRIES
      ∧ ∀ n : Nat, (histAppendAll ((dummyRecords 1001).take n)).length ≤ MAX_ENTRIES) :=
  ⟨by simp [dummyRecords, MAX_ENTRIES],
   history_fifo_eviction (dummyRecords 1001) (by simp [dummyRecords, MAX_ENTRIES])⟩

/-- Modelled from the spec: the tool_name exact-match filter of the query
engine (spec 4.2 step 1). -/
def filterTool (toolName : Option String) (l : List Record) : List Record :=
  match toolName with
  | none => l
  | some t => l.filter (fun c => c.tool_name = t)

/-- Modelled from the spec: the since lower-bound filter of the query engine
(spec 4.2 step 2: keep Records with timestamp ≥ since, inclusive). -/
def filterSince (since : Option Nat) (l : List Record) : List Record :=
  match since with
  | none => l
  | some s => l.filter (fun c => s ≤ c.timestamp)

/-- Insert one Record into a descending-by-timestamp list, placing it before
any element of equal timestamp (so later insertions come first: ties in
reverse insertion order, spec 4.2 step 3). -/
def insertDesc (x : Record) : List Record → List Record
  | [] => [x]
  | y :: ys => if y.timestamp ≤ x.timestamp then x :: y :: ys else y :: insertDesc x ys

/-- Modelled from the spec: sort by timestamp descending, most recent first,
ties broken by reverse insertion order (spec 4.2 step 3). -/
def sortDesc (l : List Record) : List Record :=
  l.foldl (fun acc x => insertDesc x acc) []

/-- Records surviving both filters of the query engine. -/
def filteredRecords (store : List Record) (toolName : Option String)
    (since : Option Nat) : List Record :=
  filterSince since (filterTool toolName store)

/-- Modelled from the spec: offset resolution of the query engine (spec 4.2
step 4): a non-negative offset is the number of results skipped from the
head; a negative offset -K skips max(0, filtered_len - K) from the head
(natural subtraction clamps at zero). -/
def resolveSkip (filteredLen : Nat) (offset : Int) : Nat :=
  if 0 ≤ offset then offset.toNat else filteredLen - offset.natAbs

/-- Modelled from the spec: ToolHistory::get_recent_calls
(kodegen_mcp_tool::tool_history, not part of this repository's src), the
query engine of spec 4.2: filter by tool_name, filter by since, sort by
timestamp descending, resolve the offset, take up to max_results. -/
def getRecentCalls (store : List Record) (maxResults : Nat) (offset : Int)
    (toolName : Option String) (since : Option Nat) : List Record :=
  ((sortDesc (filteredRecords store toolName since)).drop
    (resolveSkip (filteredRecords store toolName since).length offset)).take maxResults

theorem insertDesc_length (x : Record) (l : List Record) :
    (insertDesc x l).length = l.length + 1 := by
  induction l with
  | nil => rfl
  | cons y ys ih =>
    by_cases h : y.timestamp ≤ x.timestamp <;> simp [insertDesc, h, ih]

theorem sortDesc_aux_length (l acc : List Record) :
    (l.foldl (fun a x => insertDesc x a) acc).length = acc.length + l.length := by
  induction l generalizing acc with
  | nil => simp
  | cons x xs ih =>
    rw [List.foldl_cons, ih, insertDesc_length]
    simp only [List.length_cons]
    omega

theorem sortDesc_length (l : List Record) : (sortDesc l).length = l.length := by
  simpa [sortDesc] using sortDesc_aux_length l []

/-- C4 amended: over the query engine of spec 4.2, offset = -K with
0 < K ≤ filtered length selects exactly the last K entries of the
most-recent-first ordering (the K least recent filtered Records, kept in
that ordering) — not the K most recent; K exceeding the filtered length
yields the entire filtered sequence (skip clamped to zero); a non-negative
offset at or beyond the filtered length yields empty; and max_results = 0
yields an empty selection. -/
theorem query_offset_semantics (store : List Record) (maxResults : Nat)
    (toolName : Option String) (since : Option Nat) (K : Nat) :
    (0 < K → K ≤ (filteredRecords store toolName since).length → K ≤ maxResults →
      getRecentCalls store maxResults (-(K : Int)) toolName since
        = (sortDesc (filteredRecords store toolName since)).drop
            ((filteredRecords store toolName since).length - K))
    ∧ ((filteredRecords store toolName since).length < K →
        (filteredRecords store toolName since).length ≤ maxResults →
        getRecentCalls store maxResults (-(K : Int)) toolName since
          = sortDesc (filteredRecords store toolName since))
    ∧ (∀ off : Int, 0 ≤ off → (filteredRecords store toolName since).length ≤ off.toNat →
        getRecentCalls store maxResults off toolName since = [])
    ∧ (∀ off : Int, getRecentCalls store 0 off toolName since = []) := by
  refine ⟨?_, ?_, ?_, ?_⟩
  · intro hK hKle hKmax
    have hneg : ¬ (0 ≤ -(K : Int)) := by omega
    have habs : (-(K : Int)).natAbs = K := by simp
    simp only [getRecentCalls, resolveSkip, if_neg hneg, habs]
    apply List.take_of_length_le
    rw [List.length_drop, sortDesc_length]
    omega
  · intro hlt hmax
    have hneg : ¬ (0 ≤ -(K : Int)) := by omega
    have habs : (-(K : Int)).natAbs = K := by simp
    have h0 : (filteredRecords store toolName since).length - K = 0 := by omega
    simp only [getRecentCalls, resolveSkip, if_neg hneg, habs, h0, List.drop_zero]
    apply List.take_of_length_le
    rw [sortDesc_length]
    exact hmax
  · intro off hoff hlen
    have hd : (sortDesc (filteredRecords store toolName since)).drop off.toNat = [] := by
      apply List.drop_eq_nil_of_le
      rw [sortDesc_length]
      exact hlen
    simp [getRecentCalls, resolveSkip, if_pos hoff, hd]
  · intro off
    simp [getRecentCalls]

/-- C4 witness: on a 3-record store with no filters, offset -2 with
max_results 5 selects the last 2 entries of the most-recent-first ordering. -/
theorem query_offset_semantics_witness :
    (0 < 2 ∧ 2 ≤ (filteredRecords (dummyRecords 3) none none).length ∧ 2 ≤ 5)
    ∧ getRecentCalls (dummyRecords 3) 5 (-(2 : Int)) none none
        = (sortDesc (filteredRecords (dummyRecords 3) none none)).drop
            ((filteredRecords (dummyRecords 3) none none).length - 2) :=
  ⟨⟨by decide, by decide, by decide⟩,
   (query_offset_semantics (dummyRecords 3) 5 none none 2).1 (by decide) (by decide) (by decide)⟩

/-- Record named a with timestamp 1 (the older of the counterexample pair). -/
def crOld : Record :=
  { tool_name := "a", timestamp := 1, duration_ms := 0,
    arguments := Value.null, output := Value.null }

/-- Record named a with timestamp 2 (the more recent of the pair). -/
def crNew : Record :=
  { tool_name := "a", timestamp := 2, duration_ms := 0,
    arguments := Value.null, output := Value.null }

/-- C4 counterexample: on the store [crOld, crNew] with no filters, offset -1
(K = 1 ≤ filtered length 2) returns [crOld], the least recent Record, and not
[crNew], the single most recent one that the claim requires. -/
theorem query_negative_offset_counterexample :
    getRecentCalls [crOld, crNew] 50 (-(1 : Int)) none none = [crOld]
    ∧ crOld.timestamp < crNew.timestamp
    ∧ getRecentCalls [crOld, crNew] 50 (-(1 : Int)) none none ≠ [crNew] := by
  refine ⟨by decide, by decide, by decide⟩

/-- Result of the history store's stats() call (spec 4.1: the current
in-memory count, not the cumulative lifetime count). -/
structure HistoryStats where
  total_entries : Nat
deriving DecidableEq, Repr

/-- Modelled from the spec: ToolHistory::get_stats
(kodegen_mcp_tool::tool_history, not part of this repository's src); per
spec 4.1 it returns the current in-memory entry count. -/
def getStats (store : List Record) : HistoryStats :=
  { total_entries := store.length }

/-- Typed per-call entry of the inspect_tool_calls output
(kodegen_mcp_schema ToolCallRecord): arguments and output serialized to
JSON strings. -/
structure ToolCallRecord where
  tool_name : String
  timestamp : Nat
  duration_ms : Nat
  args_json : String
  output_json : String
deriving DecidableEq, Repr

/-- Structured output of inspect_tool_calls (InspectToolCallsOutput). -/
structure InspectToolCallsOutput where
  success : Bool
  count : Nat
  total_entries_in_memory : Nat
  calls : List ToolCallRecord
  filter_tool_name : Option String
  filter_since : Option Nat
  offset : Int
  max_results : Nat
deriving DecidableEq, Repr

/-- Query arguments of the two history tools (InspectToolCallsArgs /
GetRecentToolCallsArgs): max_results, offset, optional tool_name filter,
optional since filter. -/
structure InspectArgs where
  max_results : Nat
  offset : Int
  tool_name : Option String
  since : Option Nat
deriving DecidableEq, Repr

/-- Conversion of one queried Record to the typed output entry
(src/inspect_tool_calls.rs lines 95-101): serialization is attempted through
ser, and unwrap_or_default turns a failed serialization into the empty
string. -/
def toolCallRecordOf (ser : Value → Option String) (c : Record) : ToolCallRecord :=
  { tool_name := c.tool_name, timestamp := c.timestamp, duration_ms := c.duration_ms,
    args_json := (ser c.arguments).getD "", output_json := (ser c.output).getD "" }

/-- Terminal summary string of inspect_tool_calls
(src/inspect_tool_calls.rs lines 78-92). -/
def inspectSummary (calls : List Record) : String :=
  if calls.isEmpty then
    "\x1b[35m󰋚 Tool Call History\x1b[0m\n󰘖 Calls: 0 · No calls matching criteria"
  else
    "\x1b[35m󰋚 Tool Call History\x1b[0m\n󰘖 Calls: " ++ toString calls.length
      ++ " · Latest: " ++ ((calls.head?.map (fun c => c.tool_name)).getD "unknown")

/-- Body of InspectToolCallsTool::execute once the global history is
available (src/inspect_tool_calls.rs lines 66-114): query, stats, summary,
typed conversion, and the output record. -/
def inspectToolCallsCore (ser : Value → Option String) (store : List Record)
    (args : InspectArgs) : String × InspectToolCallsOutput :=
  let calls := getRecentCalls store args.max_results args.offset args.tool_name args.since
  let typed := calls.map (toolCallRecordOf ser)
  (inspectSummary calls,
   { success := true,
     count := typed.length,
     total_entries_in_memory := (getStats store).total_entries,
     calls := typed,
     filter_tool_name := args.tool_name,
     filter_since := args.since,
     offset := args.offset,
     max_results := args.max_results })

/-- Embedding of InspectToolCallsTool::execute
(src/inspect_tool_calls.rs lines 62-115): when the process-wide history is
uninitialized (None) the call fails with an explicit error; otherwise it
returns the summary and structured output. -/
def inspectToolCallsExecute (ser : Value → Option String)
    (globalHistory : Option (List Record)) (args : InspectArgs) :
    Except String (String × InspectToolCallsOutput) :=
  match globalHistory with
  | none => Except.error "Tool history not initialized"
  | some store => Except.ok (inspectToolCallsCore ser store args)

/-- Output of get_recent_tool_calls (the json! object of
src/get_recent_tool_calls.rs lines 79-86): a summary line plus the raw
queried calls. -/
structure GetRecentOutput where
  summary : String
  calls : List Record
deriving DecidableEq, Repr

/-- Body of GetRecentToolCallsTool::execute once the global history is
available (src/get_recent_tool_calls.rs lines 67-86). -/
def getRecentToolCallsCore (store : List Record) (args : InspectArgs) : GetRecentOutput :=
  let calls := getRecentCalls store args.max_results args.offset args.tool_name args.since
  { summary := "Tool Call History (" ++ toString calls.length ++ " results, "
      ++ toString (getStats store).total_entries ++ " total in memory)",
    calls := calls }

/-- Embedding of GetRecentToolCallsTool::execute
(src/get_recent_tool_calls.rs lines 63-87): explicit error when the
process-wide history is uninitialized, otherwise the summary and calls. -/
def getRecentToolCallsExecute (globalHistory : Option (List Record))
    (args : InspectArgs) : Except String GetRecentOutput :=
  match globalHistory with
  | none => Except.error "Tool history not initialized"
  | some store => Except.ok (getRecentToolCallsCore store args)

/-- Default query arguments (max_results 50, offset 0, no filters). -/
def defaultArgs : InspectArgs :=
  { max_results := 50, offset := 0, tool_name := none, since := none }

/-- C2: with the process-wide history uninitialized, both history-query
tools return the explicit not-initialized error and never a success result
(in particular never an empty call list presented as valid). -/
theorem uninitialized_history_errors (ser : Value → Option String) (args : InspectArgs) :
    inspectToolCallsExecute ser none args = Except.error "Tool history not initialized"
    ∧ getRecentToolCallsExecute none args = Except.error "Tool history not initialized"
    ∧ (∀ r, inspectToolCallsExecute ser none args ≠ Except.ok r)
    ∧ (∀ r, getRecentToolCallsExecute none args ≠ Except.ok r) := by
  refine ⟨rfl, rfl, ?_, ?_⟩ <;> intro r h <;>
    simp [inspectToolCallsExecute, getRecentToolCallsExecute] at h

/-- C2 witness: at the default arguments and a serializer, both tools report
the not-initialized error. -/
theorem uninitialized_history_errors_witness :
    inspectToolCallsExecute (fun _ => none) none defaultArgs
        = Except.error "Tool history not initialized"
    ∧ getRecentToolCallsExecute none defaultArgs
        = Except.error "Tool history not initialized" :=
  ⟨(uninitialized_history_errors (fun _ => none) defaultArgs).1,
   (uninitialized_history_errors (fun _ => none) defaultArgs).2.1⟩

/-- C6: for every store state and query arguments, the structured output's
count equals the length of its calls list, and total_entries_in_memory
equals the unfiltered current in-memory store size; the initialized execute
returns exactly this output. -/
theorem inspect_count_and_total (ser : Value → Option String) (store : List Record)
    (args : InspectArgs) :
    (inspectToolCallsCore ser store args).2.count
        = (inspectToolCallsCore ser store args).2.calls.length
    ∧ (inspectToolCallsCore ser store args).2.total_entries_in_memory = store.length
    ∧ inspectToolCallsExecute ser (some store) args
        = Except.ok (inspectToolCallsCore ser store args) :=
  ⟨rfl, rfl, rfl⟩

/-- C8: the history query is deterministic: identical store contents and
identical arguments produce identical results — the whole (summary,
structured output) pair, hence the calls list, count,
total_entries_in_memory and summary string all coincide. -/
theorem query_determinism (ser : Value → Option String) (s1 s2 : List Record)
    (a1 a2 : InspectArgs) (hs : s1 = s2) (ha : a1 = a2) :
    inspectToolCallsCore ser s1 a1 = inspectToolCallsCore ser s2 a2
    ∧ inspectToolCallsExecute ser (some s1) a1 = inspectToolCallsExecute ser (some s2) a2 := by
  subst hs; subst ha; exact ⟨rfl, rfl⟩

/-- C8 witness: two executions over the same concrete two-record store with
the default arguments give the same result. -/
theorem query_determinism_witness :
    inspectToolCallsCore (fun _ => none) [crOld, crNew] defaultArgs
        = inspectToolCallsCore (fun _ => none) [crOld, crNew] defaultArgs
    ∧ inspectToolCallsExecute (fun _ => none) (some [crOld, crNew]) defaultArgs
        = inspectToolCallsExecute (fun _ => none) (some [crOld, crNew]) defaultArgs :=
  query_determinism (fun _ => none) [crOld, crNew] [crOld, crNew]
    defaultArgs defaultArgs rfl rfl

/-- C10: serialization failure never fails the call: whenever the serializer
returns none on a Record's arguments or output, the corresponding args_json
or output_json field is the empty string, and the initialized execute still
returns a success result with success = true. -/
theorem serialization_failure_nonfatal (ser : Value → Option String) (c : Record)
    (store : List Record) (args : InspectArgs) :
    (ser c.arguments = none → (toolCallRecordOf ser c).args_json = "")
    ∧ (ser c.output = none → (toolCallRecordOf ser c).output_json = "")
    ∧ (inspectToolCallsCore ser store args).2.success = true
    ∧ inspectToolCallsExecute ser (some store) args
        = Except.ok (inspectToolCallsCore ser store args) := by
  refine ⟨?_, ?_, rfl, rfl⟩ <;> intro h <;> simp [toolCallRecordOf, h]

/-- C10 witness: a serializer that always fails yields empty JSON fields for
a concrete Record while the call still succeeds. -/
theorem serialization_failure_nonfatal_witness :
    (fun _ => (none : Option String)) crOld.arguments = none
    ∧ (toolCallRecordOf (fun _ => none) crOld).args_json = ""
    ∧ (toolCallRecordOf (fun _ => none) crOld).output_json = ""
    ∧ (inspectToolCallsCore (fun _ => none) [crOld] defaultArgs).2.success = true :=
  ⟨rfl,
   (serialization_failure_nonfatal (fun _ => none) crOld [crOld] defaultArgs).1 rfl,
   (serialization_failure_nonfatal (fun _ => none) crOld [crOld] defaultArgs).2.1 rfl,
   (serialization_failure_nonfatal (fun _ => none) crOld [crOld] defaultArgs).2.2.1⟩
